import Mathlib

/-!
Shallow embedding of src/its-incident-app/_sample/main.py.

The program is an AWS Lambda forwarding raw email objects from S3 to an
HTTP endpoint:

  class RawEmailForwarder:
      def __init__(self):
          self.s3_client = boto3.client("s3")
          self.api_endpoint = os.environ["API_ENDPOINT"]
          self.bucket_name = os.environ["S3_BUCKET_NAME"]

      def forward_email(self, message_id):
          try:
              response = self.s3_client.get_object(Bucket=..., Key=message_id)
              data = response["Body"].read()
              req = urllib.request.Request(url=self.api_endpoint, data=data,
                      method="POST", headers=dict of X-Message-ID to message_id)
              with urllib.request.urlopen(req, timeout=300) as response:
                  if response.status != 200:
                      print("API error status code: " + status)
          except Exception as e:
              print("Error processing message " + message_id + ": " + str(e))
              raise

  def lambda_handler(event, context):
      forwarder = RawEmailForwarder()
      for record in event.get("Records", []):
          message_id = record.get("ses", dict).get("mail", dict).get("messageId")
          if message_id:
              forwarder.forward_email(message_id)
      return dict of statusCode to 200

External effects (S3, the network) are an oracle `Env`; observable side
effects (storage reads, HTTP sends, log lines, entry into forward_email)
are collected in an event trace. Exceptions are `Except` values.
-/

/-- Raw byte content of a stored object, as a list of byte values. -/
abbrev Bytes := List Nat

/-- The Python exceptions that can arise in main.py.
`clientError` is the boto3 client exception raised by get_object when the
object is missing, storage is unreachable or access is denied (the claimed
StorageFetchError); `urlError` is urllib.error.URLError raised when the
connection cannot be established or the timeout elapses (the claimed
NetworkError); `httpError status` is urllib.error.HTTPError, raised by
urlopen when the server answers with a status outside 200..299; `keyError`
is raised by indexing os.environ with an absent variable name. -/
inductive PyExc where
  | clientError
  | urlError
  | httpError (status : Nat)
  | keyError (name : String)
deriving DecidableEq, Repr

/-- The text produced by str(e) for each modelled exception, used only to
build the logged lines. -/
def PyExc.str : PyExc → String
  | .clientError => "An error occurred when calling the GetObject operation"
  | .urlError => "urlopen error"
  | .httpError s => "HTTP Error " ++ toString s
  | .keyError n => n

/-- The urllib.request.Request object built in forward_email. -/
structure HttpRequest where
  url : String
  data : Bytes
  method : String
  headers : List (String × String)
deriving DecidableEq, Repr

/-- Observable side effects, in order of occurrence:
entry into forward_email with its argument, an S3 get_object call, an
attempted HTTP send with its timeout, and a printed log line. -/
inductive Event where
  | callForward (message_id : String)
  | s3GetObject (bucket : String) (key : String)
  | httpSend (req : HttpRequest) (timeout : Nat)
  | logLine (s : String)
deriving DecidableEq, Repr

/-- Outcome of an S3 get_object call followed by reading the body:
either the full byte content, or the client exception (object missing,
storage unreachable, or access denied). -/
inductive S3Result where
  | ok (body : Bytes)
  | err
deriving DecidableEq, Repr

/-- What the network does with an attempted HTTP request: either the
connection cannot be established (or the timeout elapses) before any
response arrives, or a response with the given final status code is
received. -/
inductive HttpOutcome where
  | netFail
  | respond (status : Nat)
deriving DecidableEq, Repr

/-- The external world: S3 keyed by bucket and key, and the HTTP endpoint
keyed by the full outgoing request. -/
structure Env where
  s3_get : String → String → S3Result
  http : HttpRequest → HttpOutcome

/-- The configuration held by RawEmailForwarder after __init__. -/
structure RawEmailForwarder where
  api_endpoint : String
  bucket_name : String
deriving DecidableEq, Repr

/-- RawEmailForwarder.__init__: reads os.environ for API_ENDPOINT and
S3_BUCKET_NAME by indexing, so an absent variable raises KeyError; there
are no defaults. `osEnv` maps a variable name to its value when set. -/
def RawEmailForwarder.init (osEnv : String → Option String) :
    Except PyExc RawEmailForwarder :=
  match osEnv "API_ENDPOINT" with
  | none => .error (.keyError "API_ENDPOINT")
  | some ep =>
    match osEnv "S3_BUCKET_NAME" with
    | none => .error (.keyError "S3_BUCKET_NAME")
    | some b => .ok { api_endpoint := ep, bucket_name := b }

/-- Models urllib.request.urlopen(req, timeout): per the Python stdlib
documented behaviour, a connection failure or timeout raises URLError, a
response whose (final, after redirect processing) status lies in 200..299
is returned to the caller, and any other status makes urlopen itself raise
HTTPError carrying that status. Returns the response status on success,
and records the attempted send in the trace. -/
def urlopen (env : Env) (req : HttpRequest) (timeout : Nat) :
    Except PyExc Nat × List Event :=
  match env.http req with
  | .netFail => (.error .urlError, [.httpSend req timeout])
  | .respond s =>
    if 200 ≤ s ∧ s < 300 then (.ok s, [.httpSend req timeout])
    else (.error (.httpError s), [.httpSend req timeout])

/-- The urllib.request.Request built in forward_email for endpoint ep,
body data and identifier mid: a POST to ep whose data is the retrieved
bytes unchanged and whose only header is X-Message-ID holding mid. -/
def mkRequest (ep : String) (data : Bytes) (mid : String) : HttpRequest :=
  { url := ep, data := data, method := "POST",
    headers := [("X-Message-ID", mid)] }

/-- The body of the try block of forward_email: fetch the object from S3
(the key is exactly the message id), build the POST request with the
X-Message-ID header, send it with timeout 300, and if a response comes
back with status other than 200 print the API error line (status only)
and fall through normally. -/
def tryForward (env : Env) (self : RawEmailForwarder) (message_id : String) :
    Except PyExc Unit × List Event :=
  match env.s3_get self.bucket_name message_id with
  | .err => (.error .clientError, [.s3GetObject self.bucket_name message_id])
  | .ok data =>
    let req : HttpRequest := mkRequest self.api_endpoint data message_id
    match urlopen env req 300 with
    | (.error e, evs) =>
      (.error e, .s3GetObject self.bucket_name message_id :: evs)
    | (.ok status, evs) =>
      if status ≠ 200 then
        (.ok (), .s3GetObject self.bucket_name message_id :: evs ++
          [.logLine ("API error status code: " ++ toString status)])
      else
        (.ok (), .s3GetObject self.bucket_name message_id :: evs)

/-- RawEmailForwarder.forward_email: runs the try body; any exception is
caught, logged as "Error processing message id: text" and re-raised. -/
def RawEmailForwarder.forward_email (self : RawEmailForwarder) (env : Env)
    (message_id : String) : Except PyExc Unit × List Event :=
  match tryForward env self message_id with
  | (.ok _, evs) => (.ok (), .callForward message_id :: evs)
  | (.error e, evs) =>
    (.error e, .callForward message_id :: evs ++
      [.logLine ("Error processing message " ++ message_id ++ ": " ++ e.str)])

/-- One record of the triggering SES event: the nested lookup
record.get("ses").get("mail").get("messageId") yields either nothing (the
path is absent) or a string, which may be empty. -/
structure SESRecord where
  messageId : Option String
deriving DecidableEq, Repr

/-- The loop body of lambda_handler over event records: for each record in
order, extract the nested messageId; Python truthiness of the `if` skips
both an absent id and the empty string; otherwise call forward_email,
whose raised exception aborts the remaining records. -/
def processRecords (env : Env) (fw : RawEmailForwarder) :
    List SESRecord → Except PyExc Unit × List Event
  | [] => (.ok (), [])
  | r :: rs =>
    match r.messageId with
    | none => processRecords env fw rs
    | some mid =>
      if mid = "" then processRecords env fw rs
      else
        match fw.forward_email env mid with
        | (.error e, evs) => (.error e, evs)
        | (.ok _, evs) =>
          let rest := processRecords env fw rs
          (rest.1, evs ++ rest.2)

/-- The dictionary returned by lambda_handler on success. -/
structure LambdaResult where
  statusCode : Nat
deriving DecidableEq, Repr

/-- lambda_handler: construct the forwarder (reading configuration once,
before any record is touched; a missing variable propagates KeyError with
nothing done), process the records in order, and return the dictionary
with statusCode 200 if no exception was raised. A raised exception
propagates out unchanged. -/
def lambda_handler (osEnv : String → Option String) (env : Env)
    (records : List SESRecord) : Except PyExc LambdaResult × List Event :=
  match RawEmailForwarder.init osEnv with
  | .error e => (.error e, [])
  | .ok fw =>
    match processRecords env fw records with
    | (.error e, evs) => (.error e, evs)
    | (.ok _, evs) => (.ok { statusCode := 200 }, evs)

/-- The identifiers lambda_handler considers usable: present and not the
empty string, in record order. -/
def usableIds (records : List SESRecord) : List String :=
  records.filterMap fun r =>
    match r.messageId with
    | none => none
    | some mid => if mid = "" then none else some mid

/-- Extracts the argument of a callForward event. -/
def callId : Event → Option String
  | .callForward m => some m
  | _ => none

/-- True exactly on httpSend events. -/
def isHttpSend : Event → Bool
  | .httpSend _ _ => true
  | _ => false

/-! Concrete instances used by witnesses and the code-bug evidence. -/

/-- A concrete forwarder configuration. -/
def fwDemo : RawEmailForwarder :=
  { api_endpoint := "https://api.example.test/mail", bucket_name := "raw-email" }

/-- A concrete os.environ with both required variables set. -/
def osEnvDemo : String → Option String := fun k =>
  if k = "API_ENDPOINT" then some "https://api.example.test/mail"
  else if k = "S3_BUCKET_NAME" then some "raw-email" else none

/-- A world where every object exists with body [72, 105] and the endpoint
always answers 200. -/
def envOk : Env :=
  { s3_get := fun _ _ => .ok [72, 105], http := fun _ => .respond 200 }

/-- A world where every object exists and the endpoint always answers 500. -/
def env500 : Env :=
  { s3_get := fun _ _ => .ok [72, 105], http := fun _ => .respond 500 }

/-- A world where every storage fetch fails. -/
def envNoObj : Env :=
  { s3_get := fun _ _ => .err, http := fun _ => .respond 200 }

/-- A world where the object exists but the connection always fails. -/
def envNet : Env :=
  { s3_get := fun _ _ => .ok [72, 105], http := fun _ => .netFail }

/-- C1: the claim says that when the endpoint answers a non-200 status such
as 500, forward_email returns normally and only logs the rejection. On the
code this fails: urllib.request.urlopen raises HTTPError for a 500
response, the except block logs it and re-raises, so forward_email raises.
This theorem evaluates the code at the failing input: object present,
endpoint answering 500, identifier m1. -/
theorem forward_raises_on_status_500 :
    (fwDemo.forward_email env500 "m1").1 = .error (.httpError 500) ∧
    (fwDemo.forward_email env500 "m1").2 =
      [.callForward "m1",
       .s3GetObject "raw-email" "m1",
       .httpSend (mkRequest "https://api.example.test/mail" [72, 105] "m1") 300,
       .logLine ("Error processing message m1: " ++ (PyExc.httpError 500).str)] :=
  ⟨rfl, rfl⟩

/-- C2: when the object exists with content data and the endpoint answers
200 to the resulting request, forward_email returns normally and its trace
is exactly one storage read followed by exactly one HTTP send whose body
is data itself, byte for byte, with no other effect. -/
theorem forward_success (env : Env) (fw : RawEmailForwarder)
    (mid : String) (data : Bytes)
    (hs3 : env.s3_get fw.bucket_name mid = .ok data)
    (hhttp : env.http (mkRequest fw.api_endpoint data mid) = .respond 200) :
    fw.forward_email env mid =
      (.ok (),
        [.callForward mid,
         .s3GetObject fw.bucket_name mid,
         .httpSend (mkRequest fw.api_endpoint data mid) 300]) := by
  simp [RawEmailForwarder.forward_email, tryForward, urlopen, hs3, hhttp]

/-- C2 witness at a concrete input. -/
theorem forward_success_witness :
    fwDemo.forward_email envOk "m1" =
      (.ok (),
        [.callForward "m1",
         .s3GetObject "raw-email" "m1",
         .httpSend (mkRequest "https://api.example.test/mail" [72, 105] "m1")
           300]) :=
  forward_success envOk fwDemo "m1" [72, 105] rfl rfl

/-- C3: when the storage fetch fails (object missing, storage unreachable
or access denied), forward_email raises the storage client error, its log
line names the identifier, and no HTTP send occurs at all. -/
theorem forward_storage_error (env : Env) (fw : RawEmailForwarder)
    (mid : String) (hs3 : env.s3_get fw.bucket_name mid = .err) :
    fw.forward_email env mid =
      (.error .clientError,
        [.callForward mid, .s3GetObject fw.bucket_name mid,
         .logLine ("Error processing message " ++ mid ++ ": " ++
           PyExc.clientError.str)]) ∧
    ∀ ev ∈ (fw.forward_email env mid).2, isHttpSend ev = false := by
  have h : fw.forward_email env mid =
      (.error .clientError,
        [.callForward mid, .s3GetObject fw.bucket_name mid,
         .logLine ("Error processing message " ++ mid ++ ": " ++
           PyExc.clientError.str)]) := by
    simp [RawEmailForwarder.forward_email, tryForward, hs3]
  refine ⟨h, ?_⟩
  rw [h]
  intro ev hev
  fin_cases hev <;> rfl

/-- C3 witness at a concrete input. -/
theorem forward_storage_error_witness :
    fwDemo.forward_email envNoObj "m1" =
      (.error .clientError,
        [.callForward "m1", .s3GetObject "raw-email" "m1",
         .logLine ("Error processing message m1: " ++ PyExc.clientError.str)]) ∧
    ∀ ev ∈ (fwDemo.forward_email envNoObj "m1").2, isHttpSend ev = false :=
  forward_storage_error envNoObj fwDemo "m1" rfl

/-- C6: when the connection cannot be established or the 300 second
timeout elapses (the netFail outcome), forward_email raises the URLError
unchanged, logs it with the identifier, and the attempted send carried
timeout 300. -/
theorem forward_net_error (env : Env) (fw : RawEmailForwarder)
    (mid : String) (data : Bytes)
    (hs3 : env.s3_get fw.bucket_name mid = .ok data)
    (hhttp : env.http (mkRequest fw.api_endpoint data mid) = .netFail) :
    fw.forward_email env mid =
      (.error .urlError,
        [.callForward mid,
         .s3GetObject fw.bucket_name mid,
         .httpSend (mkRequest fw.api_endpoint data mid) 300,
         .logLine ("Error processing message " ++ mid ++ ": " ++
           PyExc.urlError.str)]) := by
  simp [RawEmailForwarder.forward_email, tryForward, urlopen, hs3, hhttp]

/-- C6 witness at a concrete input. -/
theorem forward_net_error_witness :
    fwDemo.forward_email envNet "m1" =
      (.error .urlError,
        [.callForward "m1",
         .s3GetObject "raw-email" "m1",
         .httpSend (mkRequest "https://api.example.test/mail" [72, 105] "m1")
           300,
         .logLine ("Error processing message m1: " ++ PyExc.urlError.str)]) :=
  forward_net_error envNet fwDemo "m1" [72, 105] rfl rfl

/-- C8: once the forwarder is constructed, lambda_handler returns the
dictionary with statusCode 200 exactly when processing all records raises
nothing, and a raised exception propagates out unchanged instead of being
turned into a return value. -/
theorem lambda_handler_contract (osEnv : String → Option String) (env : Env)
    (fw : RawEmailForwarder) (records : List SESRecord)
    (hinit : RawEmailForwarder.init osEnv = .ok fw) :
    (∀ evs, processRecords env fw records = (.ok (), evs) →
      lambda_handler osEnv env records = (.ok { statusCode := 200 }, evs)) ∧
    (∀ e evs, processRecords env fw records = (.error e, evs) →
      lambda_handler osEnv env records = (.error e, evs)) := by
  constructor
  · intro evs h
    simp [lambda_handler, hinit, h]
  · intro e evs h
    simp [lambda_handler, hinit, h]

/-- C8 witness at a concrete input: one record, everything succeeds. -/
theorem lambda_handler_contract_witness :
    lambda_handler osEnvDemo envOk [{ messageId := some "m1" }] =
      (.ok { statusCode := 200 },
        [.callForward "m1",
         .s3GetObject "raw-email" "m1",
         .httpSend (mkRequest "https://api.example.test/mail" [72, 105] "m1")
           300]) :=
  (lambda_handler_contract osEnvDemo envOk fwDemo
    [{ messageId := some "m1" }] rfl).1 _ rfl

/-- Helper for C4: if processing a list of records raises, appending more
records changes neither the raised exception nor the trace — the appended
records are never touched. -/
theorem processRecords_append_of_error (env : Env) (fw : RawEmailForwarder)
    (ys : List SESRecord) :
    ∀ (xs : List SESRecord) (e : PyExc) (evs : List Event),
      processRecords env fw xs = (.error e, evs) →
      processRecords env fw (xs ++ ys) = (.error e, evs) := by
  intro xs
  induction xs with
  | nil =>
    intro e evs h
    simp [processRecords] at h
  | cons r rs ih =>
    intro e evs h
    rw [List.cons_append]
    cases hm : r.messageId with
    | none =>
      simp only [processRecords, hm] at h ⊢
      exact ih e evs h
    | some mid =>
      by_cases hmid : mid = ""
      · simp only [processRecords, hm, if_pos hmid] at h ⊢
        exact ih e evs h
      · simp only [processRecords, hm, if_neg hmid] at h ⊢
        rcases hf : fw.forward_email env mid with ⟨res, fevs⟩
        rw [hf] at h
        cases res with
        | error e2 =>
          exact h
        | ok u =>
          simp only at h ⊢
          rcases hrest : processRecords env fw rs with ⟨r1, r2⟩
          rw [hrest] at h
          simp only [Prod.mk.injEq] at h
          have h1 : r1 = .error e := h.1
          have h2 : fevs ++ r2 = evs := h.2
          rw [h1] at hrest
          rw [ih e r2 hrest]
          simp [h2]

/-- C4: processing is strictly sequential. If the forwarder is
constructed and processing a prefix xs of the records ends in a raised
exception e with trace evs, then lambda_handler on xs followed by any
further records ys fails outward with exactly that exception and exactly
that trace: no event of ys occurs, so forward_email is never invoked for
any entry after the failing one. -/
theorem lambda_handler_sequential_abort (osEnv : String → Option String)
    (env : Env) (fw : RawEmailForwarder) (xs ys : List SESRecord)
    (e : PyExc) (evs : List Event)
    (hinit : RawEmailForwarder.init osEnv = .ok fw)
    (herr : processRecords env fw xs = (.error e, evs)) :
    lambda_handler osEnv env (xs ++ ys) = (.error e, evs) := by
  have hp := processRecords_append_of_error env fw ys xs e evs herr
  simp [lambda_handler, hinit, hp]

/-- C4 witness: with the object for m1 missing, the handler on records m1
then m2 fails with the storage error and the trace stops at m1; forward
for m2 never runs. -/
theorem lambda_handler_sequential_abort_witness :
    lambda_handler osEnvDemo envNoObj
      [{ messageId := some "m1" }, { messageId := some "m2" }] =
      (.error .clientError,
        [.callForward "m1", .s3GetObject "raw-email" "m1",
         .logLine ("Error processing message m1: " ++ PyExc.clientError.str)]) :=
  lambda_handler_sequential_abort osEnvDemo envNoObj fwDemo
    [{ messageId := some "m1" }] [{ messageId := some "m2" }]
    .clientError _ rfl rfl

/-- C9: configuration handling of __init__. If either required variable is
absent from the environment, construction raises a KeyError naming a
required variable and lambda_handler fails fast with it, having produced
no event at all (no record is touched). If both are present, the
constructed configuration holds exactly the two environment strings, with
no default substituted; the structure is never modified afterwards. -/
theorem init_config_contract (osEnv : String → Option String) (env : Env)
    (records : List SESRecord) :
    ((osEnv "API_ENDPOINT" = none ∨ osEnv "S3_BUCKET_NAME" = none) →
      ∃ n, RawEmailForwarder.init osEnv = .error (.keyError n) ∧
        lambda_handler osEnv env records = (.error (.keyError n), [])) ∧
    (∀ ep b, osEnv "API_ENDPOINT" = some ep → osEnv "S3_BUCKET_NAME" = some b →
      RawEmailForwarder.init osEnv = .ok { api_endpoint := ep, bucket_name := b }) := by
  constructor
  · intro h
    cases hA : osEnv "API_ENDPOINT" with
    | none =>
      refine ⟨"API_ENDPOINT", ?_, ?_⟩
      · simp [RawEmailForwarder.init, hA]
      · simp [lambda_handler, RawEmailForwarder.init, hA]
    | some ep =>
      rcases h with h | h
      · rw [hA] at h
        cases h
      · refine ⟨"S3_BUCKET_NAME", ?_, ?_⟩
        · simp [RawEmailForwarder.init, hA, h]
        · simp [lambda_handler, RawEmailForwarder.init, hA, h]
  · intro ep b hA hB
    simp [RawEmailForwarder.init, hA, hB]

/-- C9 witness: with an environment lacking both variables, init raises
KeyError and the handler fails fast with no events; with osEnvDemo, init
yields exactly the two configured strings. -/
theorem init_config_contract_witness :
    (∃ n, RawEmailForwarder.init (fun _ => none) = .error (.keyError n) ∧
      lambda_handler (fun _ => none) envOk [{ messageId := some "m1" }] =
        (.error (.keyError n), [])) ∧
    RawEmailForwarder.init osEnvDemo = .ok fwDemo :=
  ⟨(init_config_contract (fun _ => none) envOk
      [{ messageId := some "m1" }]).1 (Or.inl rfl),
   (init_config_contract osEnvDemo envOk []).2
     "https://api.example.test/mail" "raw-email" rfl rfl⟩

/-- Helper: the try body emits no callForward event. -/
theorem tryForward_trace_no_call (env : Env) (fw : RawEmailForwarder)
    (mid : String) : (tryForward env fw mid).2.filterMap callId = [] := by
  rcases hs : env.s3_get fw.bucket_name mid with data | -
  · rcases hh : env.http (mkRequest fw.api_endpoint data mid) with - | s
    · simp [tryForward, urlopen, hs, hh, callId]
    · by_cases h2 : 200 ≤ s ∧ s < 300
      · by_cases h200 : s = 200
        · simp [tryForward, urlopen, hs, hh, h2, h200, callId]
        · simp [tryForward, urlopen, hs, hh, h2, h200, callId]
      · simp [tryForward, urlopen, hs, hh, h2, callId]
  · simp [tryForward, hs, callId]

/-- Helper: the trace of forward_email contains exactly one callForward
event, carrying the identifier it was invoked with. -/
theorem forward_trace_callId (env : Env) (fw : RawEmailForwarder)
    (mid : String) : (fw.forward_email env mid).2.filterMap callId = [mid] := by
  unfold RawEmailForwarder.forward_email
  rcases ht : tryForward env fw mid with ⟨res, evs⟩
  have hn : evs.filterMap callId = [] := by
    have h0 := tryForward_trace_no_call env fw mid
    rw [ht] at h0
    exact h0
  cases res with
  | ok u => simp [callId, hn]
  | error e => simp [callId, hn, List.filterMap_append]

/-- Helper: concatenating the traces of a list of forward_email calls
yields exactly those identifiers as callForward events, in order. -/
theorem joinTraces_callId (env : Env) (fw : RawEmailForwarder) :
    ∀ (mids : List String),
      ((mids.map (fun mid => (fw.forward_email env mid).2)).flatten).filterMap
        callId = mids := by
  intro mids
  induction mids with
  | nil => rfl
  | cons m ms ih =>
    simp [List.filterMap_append, forward_trace_callId, ih]

/-- Helper for C5: when every usable identifier forwards without raising,
processing the records returns normally and the trace is exactly the
concatenation of the forward_email traces of the usable identifiers, in
record order — one call per usable record, skipped records contribute
nothing. -/
theorem processRecords_usable (env : Env) (fw : RawEmailForwarder) :
    ∀ (records : List SESRecord),
      (∀ mid ∈ usableIds records, (fw.forward_email env mid).1 = .ok ()) →
      processRecords env fw records =
        (.ok (), ((usableIds records).map
          (fun mid => (fw.forward_email env mid).2)).flatten) := by
  intro records
  induction records with
  | nil => intro _; rfl
  | cons r rs ih =>
    intro h
    cases hm : r.messageId with
    | none =>
      have hu : usableIds (r :: rs) = usableIds rs := by
        simp [usableIds, List.filterMap_cons, hm]
      rw [hu] at h ⊢
      simp only [processRecords, hm]
      exact ih h
    | some mid =>
      by_cases hmid : mid = ""
      · have hu : usableIds (r :: rs) = usableIds rs := by
          simp [usableIds, List.filterMap_cons, hm, hmid]
        rw [hu] at h ⊢
        simp only [processRecords, hm, if_pos hmid]
        exact ih h
      · have hu : usableIds (r :: rs) = mid :: usableIds rs := by
          simp [usableIds, List.filterMap_cons, hm, hmid]
        rw [hu] at h ⊢
        have hok := h mid (List.mem_cons_self mid (usableIds rs))
        have hrest := ih fun m hm2 => h m (List.mem_cons_of_mem _ hm2)
        simp only [processRecords, hm, if_neg hmid, List.map_cons,
          List.flatten_cons]
        rcases hf : fw.forward_email env mid with ⟨res, fevs⟩
        rw [hf] at hok
        simp only at hok
        subst hok
        rw [hrest]

/-- C5: with the forwarder constructed and every usable identifier
forwarding without raising, lambda_handler performs the forward_email
calls exactly for the records carrying a usable identifier, in record
order (its trace is the concatenation of their traces, and its callForward
events are exactly the usable identifiers in order); records without a
usable identifier are silently skipped. -/
theorem lambda_handler_calls_per_usable (osEnv : String → Option String)
    (env : Env) (fw : RawEmailForwarder) (records : List SESRecord)
    (hinit : RawEmailForwarder.init osEnv = .ok fw)
    (hok : ∀ mid ∈ usableIds records, (fw.forward_email env mid).1 = .ok ()) :
    lambda_handler osEnv env records =
      (.ok { statusCode := 200 },
        ((usableIds records).map
          (fun mid => (fw.forward_email env mid).2)).flatten) ∧
    (lambda_handler osEnv env records).2.filterMap callId =
      usableIds records := by
  have hp := processRecords_usable env fw records hok
  have h1 : lambda_handler osEnv env records =
      (.ok { statusCode := 200 },
        ((usableIds records).map
          (fun mid => (fw.forward_email env mid).2)).flatten) := by
    simp [lambda_handler, hinit, hp]
  refine ⟨h1, ?_⟩
  rw [h1]
  exact joinTraces_callId env fw (usableIds records)

/-- C5 witness: records m1, then one with no identifier, then m2 — the
handler invokes forward for m1 then m2 and nothing else. -/
theorem lambda_handler_calls_per_usable_witness :
    (lambda_handler osEnvDemo envOk
      [{ messageId := some "m1" }, { messageId := none },
       { messageId := some "m2" }]).2.filterMap callId = ["m1", "m2"] :=
  (lambda_handler_calls_per_usable osEnvDemo envOk fwDemo
    [{ messageId := some "m1" }, { messageId := none },
     { messageId := some "m2" }] rfl
    (fun mid hm => by fin_cases hm <;> rfl)).2

/-- Helper for C7: any httpSend in the try body carries the X-Message-ID
header holding exactly the identifier, and timeout 300. -/
theorem tryForward_httpSend (env : Env) (fw : RawEmailForwarder)
    (mid : String) (req : HttpRequest) (t : Nat)
    (h : Event.httpSend req t ∈ (tryForward env fw mid).2) :
    req.headers = [("X-Message-ID", mid)] ∧ t = 300 := by
  rcases hs : env.s3_get fw.bucket_name mid with data | -
  · rcases hh : env.http (mkRequest fw.api_endpoint data mid) with - | s
    · simp [tryForward, urlopen, hs, hh] at h
      obtain ⟨h1, h2⟩ := h
      subst h1
      exact ⟨rfl, h2⟩
    · by_cases h2 : 200 ≤ s ∧ s < 300
      · by_cases h200 : s = 200
        · simp [tryForward, urlopen, hs, hh, h2, h200] at h
          obtain ⟨h1, h3⟩ := h
          subst h1
          exact ⟨rfl, h3⟩
        · simp [tryForward, urlopen, hs, hh, h2, h200] at h
          obtain ⟨h1, h3⟩ := h
          subst h1
          exact ⟨rfl, h3⟩
      · simp [tryForward, urlopen, hs, hh, h2] at h
        obtain ⟨h1, h3⟩ := h
        subst h1
        exact ⟨rfl, h3⟩
  · simp [tryForward, hs] at h

/-- C7: every HTTP send performed by forward_email for identifier mid
carries exactly the header list consisting of X-Message-ID mapped to mid,
with no mutation, and the timeout 300. -/
theorem forward_header_verbatim (env : Env) (fw : RawEmailForwarder)
    (mid : String) (req : HttpRequest) (t : Nat)
    (h : Event.httpSend req t ∈ (fw.forward_email env mid).2) :
    req.headers = [("X-Message-ID", mid)] ∧ t = 300 := by
  unfold RawEmailForwarder.forward_email at h
  rcases ht : tryForward env fw mid with ⟨res, evs⟩
  rw [ht] at h
  cases res with
  | ok u =>
    simp only [List.mem_cons] at h
    rcases h with h | h
    · cases h
    · exact tryForward_httpSend env fw mid req t (by rw [ht]; exact h)
  | error e =>
    simp only [List.mem_cons, List.mem_append, List.mem_singleton] at h
    rcases h with (h | h) | h | h
    · cases h
    · exact tryForward_httpSend env fw mid req t (by rw [ht]; exact h)
    · cases h
    · cases h

/-- C7 witness at a concrete input. -/
theorem forward_header_verbatim_witness :
    (mkRequest "https://api.example.test/mail" [72, 105] "m1").headers =
      [("X-Message-ID", "m1")] ∧ (300 : Nat) = 300 :=
  forward_header_verbatim envOk fwDemo "m1"
    (mkRequest "https://api.example.test/mail" [72, 105] "m1") 300
    (by decide)

/-- Helper: a callForward event in the trace of forward_email carries
exactly the identifier forward_email was invoked with. -/
theorem forward_call_event (env : Env) (fw : RawEmailForwarder)
    (mid m : String)
    (h : Event.callForward m ∈ (fw.forward_email env mid).2) : m = mid := by
  have h2 : m ∈ (fw.forward_email env mid).2.filterMap callId :=
    List.mem_filterMap.mpr ⟨Event.callForward m, h, rfl⟩
  rw [forward_trace_callId] at h2
  simpa using h2

/-- Helper for C10: every forward_email invocation made while processing
records has a non-empty identifier. -/
theorem processRecords_calls_nonempty (env : Env) (fw : RawEmailForwarder) :
    ∀ (records : List SESRecord) (m : String),
      Event.callForward m ∈ (processRecords env fw records).2 → m ≠ "" := by
  intro records
  induction records with
  | nil =>
    intro m h
    simp [processRecords] at h
  | cons r rs ih =>
    intro m h
    cases hm : r.messageId with
    | none =>
      simp only [processRecords, hm] at h
      exact ih m h
    | some mid =>
      by_cases hmid : mid = ""
      · simp only [processRecords, hm, if_pos hmid] at h
        exact ih m h
      · simp only [processRecords, hm, if_neg hmid] at h
        rcases hf : fw.forward_email env mid with ⟨res, fevs⟩
        rw [hf] at h
        cases res with
        | error e =>
          have he : m = mid :=
            forward_call_event env fw mid m (by rw [hf]; exact h)
          rw [he]
          exact hmid
        | ok u =>
          rw [List.mem_append] at h
          rcases h with h | h
          · have he : m = mid :=
              forward_call_event env fw mid m (by rw [hf]; exact h)
            rw [he]
            exact hmid
          · exact ih m h

/-- C10: a record whose messageId is present but equal to the empty string
is skipped exactly like an absent one (processing it is processing the
rest), and consequently no forward_email invocation made by lambda_handler
ever carries the empty identifier — the non-empty precondition of forward
is established by the batch driver. -/
theorem empty_messageId_skipped (osEnv : String → Option String) (env : Env)
    (fw : RawEmailForwarder) (r : SESRecord) (rs : List SESRecord)
    (records : List SESRecord) (hr : r.messageId = some "") :
    processRecords env fw (r :: rs) = processRecords env fw rs ∧
    ∀ m, Event.callForward m ∈ (lambda_handler osEnv env records).2 →
      m ≠ "" := by
  constructor
  · simp [processRecords, hr]
  · intro m h
    cases hi : RawEmailForwarder.init osEnv with
    | error e =>
      simp only [lambda_handler, hi] at h
      exact absurd h (List.not_mem_nil _)
    | ok fw2 =>
      simp only [lambda_handler, hi] at h
      rcases hp : processRecords env fw2 records with ⟨res, evs⟩
      rw [hp] at h
      cases res with
      | error e =>
        exact processRecords_calls_nonempty env fw2 records m
          (by rw [hp]; exact h)
      | ok u =>
        exact processRecords_calls_nonempty env fw2 records m
          (by rw [hp]; exact h)

/-- C10 witness: a record with the empty identifier is skipped, and the
invocation the handler does make carries the non-empty m1. -/
theorem empty_messageId_skipped_witness :
    processRecords envOk fwDemo
        [{ messageId := some "" }, { messageId := some "m1" }] =
      processRecords envOk fwDemo [{ messageId := some "m1" }] ∧
    "m1" ≠ "" :=
  ⟨(empty_messageId_skipped osEnvDemo envOk fwDemo { messageId := some "" }
      [{ messageId := some "m1" }]
      [{ messageId := some "" }, { messageId := some "m1" }] rfl).1,
   (empty_messageId_skipped osEnvDemo envOk fwDemo { messageId := some "" }
      [{ messageId := some "m1" }]
      [{ messageId := some "" }, { messageId := some "m1" }] rfl).2
     "m1" (by decide)⟩
